import Mathlib

/-!
Verification of the weekly-chart ingestion logic of this repository
(src/scripts/1_descargar.py and src/scripts/1_download.py).

The scripts are shallowly embedded: CSV rows become a structure with the
eight chart columns, the SQLite database files become explicit state
records, pandas/sqlite operations become pure list transformations, and
`datetime` calendar arithmetic (the proleptic Gregorian calendar and the
ISO week calendar used by `date.isocalendar()`) is implemented directly.
-/

namespace Charts

/-! ### Decimal rendering of natural numbers

Python renders integers in an f-string as decimal without padding
(`f"{year}"`), and with zero padding for `f"{n:02d}"` / `strftime`
fields.  `natCharsCore` produces the big-endian decimal digits of `n`
(fuel-structural so that it reduces in the kernel). -/

def natCharsCore : Nat → Nat → List Char
  | 0, _ => []
  | _ + 1, 0 => []
  | fuel + 1, n + 1 =>
    natCharsCore fuel ((n + 1) / 10) ++ [Nat.digitChar ((n + 1) % 10)]

def natStr (n : Nat) : String :=
  if n = 0 then "0" else String.mk (natCharsCore n n)

/-- Decode a list of decimal digit characters back to the number. -/
def decodeDigits (l : List Char) : Nat :=
  l.foldl (fun acc c => 10 * acc + (c.toNat - 48)) 0

/-- Python `f"{n:02d}"` (and the two-digit `strftime` fields). -/
def pad2 (n : Nat) : String :=
  if n < 10 then "0" ++ natStr n else natStr n

/-- Python `strftime('%Y')` (zero-padded to four digits). -/
def pad4 (n : Nat) : String :=
  if n < 10 then "000" ++ natStr n
  else if n < 100 then "00" ++ natStr n
  else if n < 1000 then "0" ++ natStr n
  else natStr n

/-- Python `f"{n:03d}"`. -/
def pad3 (n : Nat) : String :=
  if n < 10 then "00" ++ natStr n
  else if n < 100 then "0" ++ natStr n
  else natStr n

/-! ### Dates, timestamps and the ISO week calendar

`datetime.date` restricted to the fields the scripts use; the ISO week
computation mirrors `date.isocalendar()` of the Python standard library
(proleptic Gregorian calendar; day 1 = 0001-01-01, a Monday). -/

structure Date where
  year : Nat
  month : Nat
  day : Nat
  deriving DecidableEq

structure Timestamp where
  date : Date
  hour : Nat
  minute : Nat
  second : Nat
  deriving DecidableEq

def isLeapYear (y : Nat) : Bool :=
  (y % 4 == 0 && y % 100 != 0) || y % 400 == 0

def daysInMonth (y m : Nat) : Nat :=
  if m = 2 then (if isLeapYear y then 29 else 28)
  else if m = 4 ∨ m = 6 ∨ m = 9 ∨ m = 11 then 30
  else 31

/-- Day number of the date within its year (1-based). -/
def ordinalInYear (d : Date) : Nat :=
  (((List.range (d.month - 1)).map fun i => daysInMonth d.year (i + 1))).sum + d.day

/-- Days in all years before year `y`. -/
def daysBeforeYear (y : Nat) : Nat :=
  365 * (y - 1) + (y - 1) / 4 + (y - 1) / 400 - (y - 1) / 100

/-- Proleptic-Gregorian ordinal of a date (0001-01-01 has ordinal 1). -/
def toOrdinal (d : Date) : Nat :=
  daysBeforeYear d.year + ordinalInYear d

/-- ISO weekday, Monday = 1 .. Sunday = 7 (0001-01-01 is a Monday). -/
def isoWeekday (d : Date) : Nat :=
  (toOrdinal d - 1) % 7 + 1

def isoWeeksInYear (y : Nat) : Nat :=
  let j := isoWeekday ⟨y, 1, 1⟩
  if j = 4 ∨ (isLeapYear y ∧ j = 3) then 53 else 52

/-- `date.isocalendar()` restricted to (ISO year, ISO week). -/
def isoCalendar (d : Date) : Nat × Nat :=
  let o := ordinalInYear d
  let wd := isoWeekday d
  let w := (o + 10 - wd) / 7
  if w = 0 then (d.year - 1, isoWeeksInYear (d.year - 1))
  else if isoWeeksInYear d.year < w then (d.year + 1, 1)
  else (d.year, w)

/-- `get_week_identifier` (both scripts):
`year, week_num, _ = date.isocalendar(); return f"{year}-W{week_num:02d}"`. -/
def get_week_identifier (d : Date) : String :=
  natStr (isoCalendar d).1 ++ "-W" ++ pad2 (isoCalendar d).2

/-! ### Timestamp formatting (the strftime formats used by the scripts) -/

/-- `strftime('%Y-%m-%d')`. -/
def fmtDate (d : Date) : String :=
  pad4 d.year ++ "-" ++ pad2 d.month ++ "-" ++ pad2 d.day

/-- `strftime('%H:%M:%S')`. -/
def fmtTime (t : Timestamp) : String :=
  pad2 t.hour ++ ":" ++ pad2 t.minute ++ ":" ++ pad2 t.second

/-- `strftime('%Y-%m-%d %H:%M:%S')`. -/
def fmtDateTime (t : Timestamp) : String :=
  fmtDate t.date ++ " " ++ fmtTime t

/-- `strftime('%Y%m%d_%H%M%S')`. -/
def fmtCompact (t : Timestamp) : String :=
  pad4 t.date.year ++ pad2 t.date.month ++ pad2 t.date.day ++ "_" ++
    pad2 t.hour ++ pad2 t.minute ++ pad2 t.second

/-- `strftime('%W')`: week of the year with Monday as first day;
days before the first Monday of the year are week 00. -/
def fmtWeekW (d : Date) : String :=
  pad2 ((ordinalInYear d + 6 - (isoWeekday d - 1)) / 7)

/-! ### MD5 (`hashlib.md5(...).hexdigest()`)

Machine words are naturals reduced mod `2 ^ 32`. -/

def M32 : Nat := 4294967296

def rotl32 (x n : Nat) : Nat :=
  x % 2 ^ (32 - n) * 2 ^ n + x / 2 ^ (32 - n)

def natNot32 (x : Nat) : Nat := Nat.xor x (M32 - 1)

def md5K : List Nat :=
  [0xd76aa478, 0xe8c7b756, 0x242070db, 0xc1bdceee,
   0xf57c0faf, 0x4787c62a, 0xa8304613, 0xfd469501,
   0x698098d8, 0x8b44f7af, 0xffff5bb1, 0x895cd7be,
   0x6b901122, 0xfd987193, 0xa679438e, 0x49b40821,
   0xf61e2562, 0xc040b340, 0x265e5a51, 0xe9b6c7aa,
   0xd62f105d, 0x02441453, 0xd8a1e681, 0xe7d3fbc8,
   0x21e1cde6, 0xc33707d6, 0xf4d50d87, 0x455a14ed,
   0xa9e3e905, 0xfcefa3f8, 0x676f02d9, 0x8d2a4c8a,
   0xfffa3942, 0x8771f681, 0x6d9d6122, 0xfde5380c,
   0xa4beea44, 0x4bdecfa9, 0xf6bb4b60, 0xbebfbc70,
   0x289b7ec6, 0xeaa127fa, 0xd4ef3085, 0x04881d05,
   0xd9d4d039, 0xe6db99e5, 0x1fa27cf8, 0xc4ac5665,
   0xf4292244, 0x432aff97, 0xab9423a7, 0xfc93a039,
   0x655b59c3, 0x8f0ccc92, 0xffeff47d, 0x85845dd1,
   0x6fa87e4f, 0xfe2ce6e0, 0xa3014314, 0x4e0811a1,
   0xf7537e82, 0xbd3af235, 0x2ad7d2bb, 0xeb86d391]

def md5S : List Nat :=
  [7, 12, 17, 22, 7, 12, 17, 22, 7, 12, 17, 22, 7, 12, 17, 22,
   5, 9, 14, 20, 5, 9, 14, 20, 5, 9, 14, 20, 5, 9, 14, 20,
   4, 11, 16, 23, 4, 11, 16, 23, 4, 11, 16, 23, 4, 11, 16, 23,
   6, 10, 15, 21, 6, 10, 15, 21, 6, 10, 15, 21, 6, 10, 15, 21]

def md5F (i b c d : Nat) : Nat :=
  if i < 16 then Nat.lor (Nat.land b c) (Nat.land (natNot32 b) d)
  else if i < 32 then Nat.lor (Nat.land d b) (Nat.land (natNot32 d) c)
  else if i < 48 then Nat.xor b (Nat.xor c d)
  else Nat.xor c (Nat.lor b (natNot32 d))

def md5G (i : Nat) : Nat :=
  if i < 16 then i
  else if i < 32 then (5 * i + 1) % 16
  else if i < 48 then (3 * i + 5) % 16
  else 7 * i % 16

/-- One 512-bit chunk (`m` is its 16 little-endian 32-bit words). -/
def md5Chunk (h : Nat × Nat × Nat × Nat) (m : List Nat) : Nat × Nat × Nat × Nat :=
  let step := fun (st : Nat × Nat × Nat × Nat) (i : Nat) =>
    let f := (st.1 + md5F i st.2.1 st.2.2.1 st.2.2.2 + md5K.getD i 0 +
      m.getD (md5G i) 0) % M32
    (st.2.2.2, (st.2.1 + rotl32 f (md5S.getD i 0)) % M32, st.2.1, st.2.2.1)
  let r := (List.range 64).foldl step h
  ((h.1 + r.1) % M32, (h.2.1 + r.2.1) % M32, (h.2.2.1 + r.2.2.1) % M32,
    (h.2.2.2 + r.2.2.2) % M32)

/-- Little-endian bytes of a 64-bit length field. -/
def le8 (n : Nat) : List Nat :=
  (List.range 8).map fun i => n / 2 ^ (8 * i) % 256

/-- Little-endian bytes of a 32-bit word. -/
def le4 (n : Nat) : List Nat :=
  [n % 256, n / 256 % 256, n / 65536 % 256, n / 16777216 % 256]

/-- MD5 padding: `0x80`, zeros to 56 mod 64, 8-byte little-endian bit length. -/
def md5Pad (msg : List Nat) : List Nat :=
  msg ++ [128] ++ List.replicate ((119 - msg.length % 64) % 64) 0 ++
    le8 (8 * msg.length % 2 ^ 64)

/-- The 16-byte MD5 digest of a byte sequence. -/
def md5Bytes (msg : List Nat) : List Nat :=
  let padded := md5Pad msg
  let chunks := (List.range (padded.length / 64)).map fun k =>
    (padded.drop (64 * k)).take 64
  let words := fun (c : List Nat) => (List.range 16).map fun j =>
    c.getD (4 * j) 0 + 256 * c.getD (4 * j + 1) 0 +
      65536 * c.getD (4 * j + 2) 0 + 16777216 * c.getD (4 * j + 3) 0
  let h := chunks.foldl (fun h c => md5Chunk h (words c))
    (0x67452301, 0xefcdab89, 0x98badcfe, 0x10325476)
  le4 h.1 ++ le4 h.2.1 ++ le4 h.2.2.1 ++ le4 h.2.2.2

/-- Lowercase hex characters of a byte list (`hexdigest`). -/
def hexChars (bytes : List Nat) : List Char :=
  (bytes.map fun b => [Nat.digitChar (b / 16), Nat.digitChar (b % 16)]).flatten

/-- UTF-8 bytes of a string (`str.encode()`). -/
def utf8Bytes (s : String) : List Nat :=
  s.toUTF8.toList.map fun b => b.toNat

/-! ### Chart CSV rows

The eight columns of the downloaded YouTube-Charts CSV (the shape both
scripts read with `pd.read_csv` and both fallback generators produce).
`Rank`, `Previous Rank`, `Periods on Chart` and `Views` are integers,
the rest are strings. -/

structure CsvRow where
  rank : Nat
  previousRank : Nat
  trackName : String
  artistNames : String
  periodsOnChart : Nat
  views : Nat
  growth : String
  youtubeURL : String
  deriving DecidableEq

/-- Python `s[:n]` on a string (first `n` characters). -/
def strTake (s : String) (n : Nat) : String :=
  String.mk (s.data.take n)

/-- The per-row fragment of the hashed week string:
`f"{row['Rank']}_{row['Track Name'][:20]}_{row['Artist Names'][:20]}_{row['Views']}"`. -/
def weekHashChunk (r : CsvRow) : String :=
  natStr r.rank ++ "_" ++ strTake r.trackName 20 ++ "_" ++
    strTake r.artistNames 20 ++ "_" ++ natStr r.views

/-- `calculate_week_hash` (1_descargar.py): concatenate the fragments of
the first 10 rows and take the first 16 characters of the MD5 hexdigest.
(The Python `except` branch returning `None` only fires when the frame
lacks the used columns, which the typed row excludes.) -/
def calculate_week_hash (df : List CsvRow) : String :=
  String.mk ((hexChars (md5Bytes (utf8Bytes
    (String.join ((df.take 10).map weekHashChunk))))).take 16)

/-! ### The `charts_database.db` state of 1_descargar.py

One shared SQLite file holding the `week_control` table, the
`historical_charts` table, the per-week `weekly_YYYY_wXX` tables and the
`weekly_charts` summary view. -/

/-- A row of `historical_charts` / of a weekly table: the CSV columns
plus the metadata columns added before `to_sql`. -/
structure HistRow where
  base : CsvRow
  download_date : String
  week_identifier : String
  week_hash : String
  year : String
  month : String
  week_number : String
  deriving DecidableEq

/-- A row of the `week_control` table. -/
structure ControlRow where
  week_identifier : String
  week_hash : String
  download_date : String
  week_info : String
  total_records : Nat
  total_views : Nat
  deriving DecidableEq

/-- A row of the `weekly_charts` summary table
(`Rank, Track Name, Artist Names, Views, download_date`). -/
structure SummaryRow where
  rank : Nat
  trackName : String
  artistNames : String
  views : Nat
  download_date : String
  deriving DecidableEq

structure DbState where
  week_control : List ControlRow
  historical_charts : List HistRow
  weeklyTables : List (String × List HistRow)
  weekly_charts : List SummaryRow
  deriving DecidableEq

def emptyDb : DbState := ⟨[], [], [], []⟩

/-- The metadata columns 1_descargar.py adds to the frame. -/
def addHistMeta (t : Timestamp) (wid whash : String) (r : CsvRow) : HistRow :=
  { base := r
    download_date := fmtDateTime t
    week_identifier := wid
    week_hash := whash
    year := pad4 t.date.year
    month := pad2 t.date.month
    week_number := fmtWeekW t.date }

/-- `safe_table_name`: `f"weekly_{wid.replace('-','_').replace('W','w')}"`
filtered to alphanumerics and underscores. -/
def safeTableName (wid : String) : String :=
  let s := "weekly_" ++ String.mk (wid.data.map fun c =>
    if c = '-' then '_' else if c = 'W' then 'w' else c)
  String.mk (s.data.filter fun c => c.isAlphanum || c = '_')

/-- `df.to_sql(name, conn, if_exists='replace')` on the per-week table. -/
def setTable (name : String) (rows : List HistRow)
    (ts : List (String × List HistRow)) : List (String × List HistRow) :=
  ts.filter (fun p => p.1 ≠ name) ++ [(name, rows)]

/-- `INSERT OR REPLACE INTO week_control`: rows conflicting on the
`week_identifier` primary key or the `UNIQUE week_hash` are replaced. -/
def insertOrReplaceControl (row : ControlRow) (t : List ControlRow) :
    List ControlRow :=
  t.filter (fun r => r.week_identifier ≠ row.week_identifier ∧
    r.week_hash ≠ row.week_hash) ++ [row]

def descargarDbPath : String := "databases/charts_database.db"

/-- `update_sqlite_database` (1_descargar.py).  Reads the CSV, computes
the week identifier and hash, and either skips (hash already present in
`week_control`) or appends to `historical_charts`, replaces the weekly
table, upserts `week_control` and rewrites `weekly_charts`.  Returns the
new database state and the returned database path. -/
def update_sqlite_database_descargar (t : Timestamp) (week_info : Option String)
    (s : DbState) (csv : List CsvRow) : DbState × String :=
  let wid := get_week_identifier t.date
  let whash := calculate_week_hash csv
  if s.week_control.any (fun r => r.week_hash == whash) then
    (s, descargarDbPath)
  else
    let rows := csv.map (addHistMeta t wid whash)
    let ctrl : ControlRow :=
      { week_identifier := wid
        week_hash := whash
        download_date := fmtDateTime t
        week_info := match week_info with | none => "None" | some x => x
        total_records := csv.length
        total_views := (csv.map (·.views)).sum }
    ({ week_control := insertOrReplaceControl ctrl s.week_control
       historical_charts := s.historical_charts ++ rows
       weeklyTables := setTable (safeTableName wid) rows s.weeklyTables
       weekly_charts := rows.map fun r =>
         ⟨r.base.rank, r.base.trackName, r.base.artistNames, r.base.views,
           r.download_date⟩ },
     descargarDbPath)

/-! ### The per-week databases of 1_download.py -/

/-- A row of `chart_data`: the CSV columns plus the metadata columns
added by 1_download.py. -/
structure DlRow where
  base : CsvRow
  download_date : String
  download_time : String
  week_id : String
  timestamp : String
  deriving DecidableEq

def addDlMeta (t : Timestamp) (wid : String) (r : CsvRow) : DlRow :=
  { base := r
    download_date := fmtDate t.date
    download_time := fmtTime t
    week_id := wid
    timestamp := fmtCompact t }

/-- `DATABASE_DIR / f"youtube_charts_{week_id}.db"` (1_download.py). -/
def downloadDbFile (wid : String) : String :=
  "charts_archive/1_download-chart/databases/youtube_charts_" ++ wid ++ ".db"

/-- `update_sqlite_database` (1_download.py) acting on the `chart_data`
table of the week's database (`none` = the table does not exist yet).
The rows go through a timestamped temporary table that is then either
`INSERT INTO chart_data SELECT *`-ed and dropped, or renamed to
`chart_data`; the net effect on `chart_data` is an append.  Returns the
new table contents and the returned database path. -/
def update_sqlite_database_download (chart_data : Option (List DlRow))
    (csv : List CsvRow) (wid : String) (t : Timestamp) :
    List DlRow × String :=
  (chart_data.getD [] ++ csv.map (addDlMeta t wid), downloadDbFile wid)

/-- `create_fallback_file` (1_download.py): 100 generated records. -/
def create_fallback_file_download : List CsvRow :=
  (List.range 100).map fun k =>
    let i := k + 1
    { rank := i
      previousRank := if 1 < i then max 1 (i - 1) else 1
      trackName := "Popular Song " ++ natStr i
      artistNames := "Artist " ++ String.mk [Char.ofNat (65 + (i - 1) % 26)] ++
        " and Collaborators"
      periodsOnChart := 10 + i % 40
      views := 5000000 + (100 - i) * 50000
      growth := natStr ((101 - i) / 100) ++ "." ++ pad2 ((101 - i) % 100) ++ "%"
      youtubeURL := "https://www.youtube.com/watch?v=example" ++ pad3 i }

/-- `create_fallback_file` (1_descargar.py): five hardcoded sample rows
(the script additionally stamps `Download_Date` and `week_identifier`
columns onto the frame before writing the CSV). -/
def create_fallback_file_descargar : List CsvRow :=
  [{ rank := 1, previousRank := 1, trackName := "Golden"
     artistNames := "HUNTR/X & EJAE & AUDREY NUNA & REI AMI & KPop Demon Hunters Cast"
     periodsOnChart := 32, views := 57046376, growth := "-0.01%"
     youtubeURL := "https://www.youtube.com/watch?v=yebNIHKAC4A" },
   { rank := 2, previousRank := 2, trackName := "Zoo"
     artistNames := "Shakira"
     periodsOnChart := 9, views := 33072035, growth := "-0.16%"
     youtubeURL := "https://www.youtube.com/watch?v=Kw3935PH01E" },
   { rank := 3, previousRank := 5, trackName := "Shararat"
     artistNames := "Shashwat Sachdev & Madhubanti Bagchi & Jasmine Sandlas"
     periodsOnChart := 7, views := 32271534, growth := "0.16%"
     youtubeURL := "https://www.youtube.com/watch?v=YyepU5ztLf4" },
   { rank := 4, previousRank := 4, trackName := "NO BATID\xc3O"
     artistNames := "ZXKAI & slxughter"
     periodsOnChart := 14, views := 30928663, growth := "0.04%"
     youtubeURL := "https://www.youtube.com/watch?v=GXioir-fujY" },
   { rank := 5, previousRank := 3, trackName := "Pal Pal"
     artistNames := "Afusic & AliSoomroMusic"
     periodsOnChart := 43, views := 27554912, growth := "-0.08%"
     youtubeURL := "https://www.youtube.com/watch?v=8of5w7RgcTc" }]

/-! ### Backup rotation (`backup_database`, 1_descargar.py) -/

/-- A file matching `charts_database_backup_*.db` in the database
directory, with its modification time. -/
structure BackupFile where
  name : String
  mtime : Nat
  deriving DecidableEq

def backupLe : BackupFile → BackupFile → Prop := fun a b => a.mtime ≤ b.mtime

instance : DecidableRel backupLe := fun a b => Nat.decLe a.mtime b.mtime

instance : IsTotal BackupFile backupLe := ⟨fun a b => Nat.le_total a.mtime b.mtime⟩

instance : IsTrans BackupFile backupLe := ⟨fun _ _ _ h1 h2 => Nat.le_trans h1 h2⟩

def mkBackupName (ts : String) : String :=
  "charts_database_backup_" ++ ts ++ ".db"

/-- The backup file created by `shutil.copy2` (which preserves the source
database's modification time). -/
def newBackup (ts : String) (m : Nat) : BackupFile :=
  ⟨mkBackupName ts, m⟩

/-- `backup_database` (1_descargar.py).  If the main database does not
exist it is a no-op returning `None`.  Otherwise it copies the database
(`shutil.copy2` preserves the source's mtime), sorts all files matching
`charts_database_backup_*.db` by mtime and unlinks all but the last 5.
Inputs: the main database's mtime (if it exists), the timestamp used in
the new backup's name, and the existing matching files. -/
def backup_database (dbMtime : Option Nat) (ts : String)
    (backups : List BackupFile) : Option String × List BackupFile :=
  match dbMtime with
  | none => (none, backups)
  | some m =>
    let withNew := backups ++ [newBackup ts m]
    let sorted := withNew.insertionSort backupLe
    (some (mkBackupName ts),
      if 5 < withNew.length then sorted.drop (withNew.length - 5) else withNew)

/-! ### `main` (1_descargar.py)

Only the data flow relevant to the fallback behaviour is modelled: which
CSV the pipeline continues with, the analysis / archive artefacts
produced from it, and the database update applied to the state. -/

/-- `df.nsmallest(10, 'Rank')` of `generate_analysis_csvs` (the
`top10_weekly.csv` artefact): the ten smallest ranks in ascending
order (stable for ties, as pandas keeps first occurrences). -/
def analysisTop10 (csv : List CsvRow) : List CsvRow :=
  (csv.insertionSort fun a b => a.rank ≤ b.rank).take 10

structure MainOutput where
  temp_csv : List CsvRow
  analysis_top10 : List CsvRow
  historical_csv : String
  latest_csv : String
  database : Option String
  is_fallback : Bool
  deriving DecidableEq

/-- `archive_for_long_term_storage`: the dated archive file name. -/
def archiveDatedName (t : Timestamp) : String :=
  "charts_archive/youtube_chart_" ++ fmtDate t.date ++ "_" ++
    get_week_identifier t.date ++ ".csv"

/-- `main` (1_descargar.py), as a function of the download step's result
(`none` when `click_download_button` produced no file or raised).  On
failure it builds the fallback CSV from the hardcoded rows and still
runs the analysis, archiving and database-update steps on it.  (The
`create_fallback_file` error branch is pure-data and cannot fail in the
embedding.)  Returns the result dictionary and the final database
state. -/
def descargar_main (download : Option (List CsvRow × Option String))
    (t : Timestamp) (s : DbState) : Option MainOutput × DbState :=
  match download with
  | some (csv, week_info) =>
    let r := update_sqlite_database_descargar t week_info s csv
    (some { temp_csv := csv
            analysis_top10 := analysisTop10 csv
            historical_csv := archiveDatedName t
            latest_csv := "charts_archive/latest_chart.csv"
            database := some r.2
            is_fallback := false }, r.1)
  | none =>
    let csv := create_fallback_file_descargar
    let r := update_sqlite_database_descargar t (some "Fallback Week") s csv
    (some { temp_csv := csv
            analysis_top10 := analysisTop10 csv
            historical_csv := archiveDatedName t
            latest_csv := "charts_archive/latest_chart.csv"
            database := some r.2
            is_fallback := true }, r.1)

/-! ### Auxiliary definitions used by the statements -/

/-- The projection of a row that `calculate_week_hash` actually reads:
`Rank`, `Views`, and the first 20 characters of `Track Name` and
`Artist Names`. -/
def hashView (r : CsvRow) : Nat × Nat × String × String :=
  (r.rank, r.views, strTake r.trackName 20, strTake r.artistNames 20)

/-- Substring occurrence test (executable). -/
def hasSubstrB (s sub : String) : Bool :=
  (List.range (s.data.length + 1)).any fun i =>
    (s.data.drop i).take sub.data.length == sub.data

/-! ### Concrete inputs for the witness theorems -/

def c1Csv : List CsvRow :=
  [⟨1, 1, "Golden", "HUNTRX", 32, 57046376, "-0.01%", "url"⟩]

def c1Ctl : ControlRow :=
  ⟨"2025-W41", calculate_week_hash c1Csv, "2025-10-06 00:00:00", "None", 1, 57046376⟩

def c1Db : DbState := ⟨[c1Ctl], [], [], []⟩

def c2Csv : List CsvRow := [⟨1, 1, "A", "B", 1, 100, "0.01%", "u"⟩]

def c2T : Timestamp := ⟨⟨2025, 10, 6⟩, 1, 2, 3⟩

def c3T : Timestamp := ⟨⟨2025, 10, 6⟩, 0, 0, 0⟩

def c3Csv : List CsvRow := [⟨1, 1, "A", "B", 1, 100, "0.01%", "u"⟩]

def c5D1 : List CsvRow :=
  (List.range 10).map fun i =>
    ⟨i + 1, i, "Song " ++ natStr i, "Artist", 5, 1000 + i, "0.10%", "url"⟩

def c5D2 : List CsvRow :=
  ((List.range 10).map fun i =>
    ⟨i + 1, i + 7, "Song " ++ natStr i, "Artist", 9, 1000 + i, "9.99%", "elsewhere"⟩) ++
    [⟨11, 11, "Extra", "Nobody", 1, 1, "0.00%", "u"⟩]

def c6Backups : List BackupFile :=
  [⟨"charts_database_backup_a.db", 1⟩, ⟨"charts_database_backup_b.db", 2⟩,
   ⟨"charts_database_backup_c.db", 3⟩, ⟨"charts_database_backup_d.db", 4⟩,
   ⟨"charts_database_backup_e.db", 5⟩, ⟨"charts_database_backup_f.db", 6⟩]

/-! ## Theorems -/

/-! ### Decimal rendering -/

theorem decodeDigits_append (l : List Char) (c : Char) :
    decodeDigits (l ++ [c]) = 10 * decodeDigits l + (c.toNat - 48) := by
  unfold decodeDigits
  rw [List.foldl_append]
  rfl

theorem digitChar_toNat (d : Nat) (h : d < 10) :
    (Nat.digitChar d).toNat = 48 + d := by
  interval_cases d <;> rfl

theorem decode_natCharsCore : ∀ fuel n, n ≤ fuel →
    decodeDigits (natCharsCore fuel n) = n := by
  intro fuel
  induction fuel with
  | zero => intro n hn; interval_cases n; rfl
  | succ f ih =>
    intro n hn
    match n with
    | 0 => rfl
    | m + 1 =>
      rw [natCharsCore, decodeDigits_append, ih ((m + 1) / 10) ?_,
        digitChar_toNat _ (Nat.mod_lt _ (by omega))]
      · omega
      · have : (m + 1) / 10 < m + 1 := Nat.div_lt_self (by omega) (by omega)
        omega

theorem decode_natStr (n : Nat) : decodeDigits (natStr n).data = n := by
  unfold natStr
  by_cases h : n = 0
  · simp [h]; rfl
  · simp only [h, if_false]
    exact decode_natCharsCore n n le_rfl

theorem natStr_injective {m n : Nat} (h : natStr m = natStr n) : m = n := by
  have := congrArg (fun s : String => decodeDigits s.data) h
  simpa [decode_natStr] using this

theorem strData_append (a b : String) : (a ++ b).data = a.data ++ b.data := rfl

/-! ### The duplicate-week skip of 1_descargar.py -/

/-- If the computed hash is already present in `week_control`, the update
returns the database path without touching the state. -/
theorem descargar_update_skip (t : Timestamp) (wi : Option String) (s : DbState)
    (csv : List CsvRow)
    (h : s.week_control.any (fun r => r.week_hash == calculate_week_hash csv) = true) :
    update_sqlite_database_descargar t wi s csv = (s, descargarDbPath) := by
  unfold update_sqlite_database_descargar
  simp [h]

/-- Whatever branch is taken, the returned path is the shared database file. -/
theorem descargar_update_path (t : Timestamp) (wi : Option String) (s : DbState)
    (csv : List CsvRow) :
    (update_sqlite_database_descargar t wi s csv).2 = descargarDbPath := by
  unfold update_sqlite_database_descargar
  by_cases h : s.week_control.any (fun r => r.week_hash == calculate_week_hash csv) <;>
    simp [h]

/-- After any run on `csv`, the hash of `csv` is present in `week_control`. -/
theorem descargar_update_hash_present (t : Timestamp) (wi : Option String)
    (s : DbState) (csv : List CsvRow) :
    ((update_sqlite_database_descargar t wi s csv).1.week_control.any
      fun r => r.week_hash == calculate_week_hash csv) = true := by
  unfold update_sqlite_database_descargar
  by_cases h : s.week_control.any (fun r => r.week_hash == calculate_week_hash csv)
  · simp [h]
  · simp [h, insertOrReplaceControl]

/-- C1: a CSV whose computed 16-character content hash already appears in
the `week_control` table makes `update_sqlite_database` (1_descargar.py)
skip: it inserts no rows into any table, leaves the database state
unchanged, and returns the database path. -/
theorem duplicate_week_skipped (t : Timestamp) (wi : Option String) (s : DbState)
    (csv : List CsvRow)
    (h : ∃ r ∈ s.week_control, r.week_hash = calculate_week_hash csv) :
    update_sqlite_database_descargar t wi s csv = (s, descargarDbPath) := by
  apply descargar_update_skip
  obtain ⟨r, hr, he⟩ := h
  exact List.any_eq_true.mpr ⟨r, hr, by simp [he]⟩

/-- Witness for C1 at a concrete database whose `week_control` already
holds the hash of the incoming CSV. -/
theorem duplicate_week_skipped_witness :
    update_sqlite_database_descargar ⟨⟨2025, 10, 6⟩, 0, 0, 0⟩ none c1Db c1Csv
      = (c1Db, descargarDbPath) :=
  duplicate_week_skipped ⟨⟨2025, 10, 6⟩, 0, 0, 0⟩ none c1Db c1Csv
    ⟨c1Ctl, by simp [c1Db], rfl⟩

/-- C2 amended: `update_sqlite_database` of 1_descargar.py is idempotent —
a second run on the same CSV finds the week hash in `week_control` and
leaves the database state unchanged (regardless of the timestamps and
week infos of the two runs). -/
theorem descargar_update_idempotent (t1 t2 : Timestamp) (w1 w2 : Option String)
    (s : DbState) (csv : List CsvRow) :
    (update_sqlite_database_descargar t2 w2
        (update_sqlite_database_descargar t1 w1 s csv).1 csv).1
      = (update_sqlite_database_descargar t1 w1 s csv).1 := by
  rw [descargar_update_skip t2 w2 _ csv (descargar_update_hash_present t1 w1 s csv)]

/-- C2 counterexample: `update_sqlite_database` of 1_download.py has no
duplicate detection — running it twice on the same CSV appends the rows a
second time, so the `chart_data` table differs from a single run. -/
theorem double_ingestion_not_idempotent :
    (update_sqlite_database_download
        (some (update_sqlite_database_download none c2Csv "2025-W41" c2T).1)
        c2Csv "2025-W41" c2T).1
      ≠ (update_sqlite_database_download none c2Csv "2025-W41" c2T).1 := by
  decide

/-- C3 counterexample: a 1_descargar.py run stores the week's rows, yet
the database file it writes and returns is `databases/charts_database.db`,
whose name does not contain the week identifier (here `2025-W41`), so two
different ISO weeks end up in the same database file. -/
theorem descargar_single_database_file :
    (update_sqlite_database_descargar c3T none emptyDb c3Csv).1.historical_charts ≠ [] ∧
    (update_sqlite_database_descargar c3T none emptyDb c3Csv).2
      = "databases/charts_database.db" ∧
    get_week_identifier c3T.date = "2025-W41" ∧
    hasSubstrB "databases/charts_database.db" (get_week_identifier c3T.date) = false := by
  refine ⟨by decide, by decide, by decide, by decide⟩

/-- C3 amended: only 1_download.py is per-week — it stores week `W` in
`youtube_charts_{W}.db`, whose name contains `W`, and distinct weeks give
distinct files; 1_descargar.py stores every week in the single file
`databases/charts_database.db` (with per-week tables inside it). -/
theorem download_per_week_database (w1 w2 : String) (h : w1 ≠ w2) :
    (∃ p q, downloadDbFile w1 = p ++ w1 ++ q) ∧
    downloadDbFile w1 ≠ downloadDbFile w2 ∧
    ∀ t wi s csv, (update_sqlite_database_descargar t wi s csv).2 = descargarDbPath := by
  refine ⟨⟨"charts_archive/1_download-chart/databases/youtube_charts_", ".db", rfl⟩,
    ?_, fun t wi s csv => descargar_update_path t wi s csv⟩
  intro he
  apply h
  have hd := congrArg String.data he
  simp only [downloadDbFile, strData_append] at hd
  rw [List.append_assoc, List.append_assoc] at hd
  have hw := List.append_cancel_right (List.append_cancel_left hd)
  exact congrArg String.mk hw

/-- Witness for C3's amended statement at two concrete distinct weeks. -/
theorem download_per_week_database_witness :
    downloadDbFile "2025-W41" ≠ downloadDbFile "2025-W42" :=
  (download_per_week_database "2025-W41" "2025-W42" (by decide)).2.1

/-- C4: when the download step yields no CSV, `main` (1_descargar.py)
builds the fallback CSV from the hardcoded sample rows and continues the
pipeline with it — the analysis, archiving and database-update steps all
run on the fallback data and `main` still returns a result dictionary
instead of aborting. -/
theorem main_continues_with_fallback (t : Timestamp) (s : DbState) :
    (descargar_main none t s).1 = some
      { temp_csv := create_fallback_file_descargar
        analysis_top10 := analysisTop10 create_fallback_file_descargar
        historical_csv := archiveDatedName t
        latest_csv := "charts_archive/latest_chart.csv"
        database := some descargarDbPath
        is_fallback := true } ∧
    (descargar_main none t s).2 =
      (update_sqlite_database_descargar t (some "Fallback Week") s
        create_fallback_file_descargar).1 := by
  constructor
  · simp [descargar_main, descargar_update_path]
  · rfl

/-- C9: `update_sqlite_database` (1_download.py) only appends — when the
`chart_data` table already exists, every row present before the call is
still present, unchanged, afterwards (the new contents are exactly the old
rows followed by the new CSV's rows). -/
theorem chart_data_rows_preserved (rows : List DlRow) (csv : List CsvRow)
    (wid : String) (t : Timestamp) :
    (update_sqlite_database_download (some rows) csv wid t).1
        = rows ++ csv.map (addDlMeta t wid) ∧
    ∀ r ∈ rows, r ∈ (update_sqlite_database_download (some rows) csv wid t).1 := by
  refine ⟨rfl, fun r hr => ?_⟩
  exact List.mem_append_left _ hr

/-! ### The week hash -/

theorem md5Bytes_length (msg : List Nat) : (md5Bytes msg).length = 16 := by
  unfold md5Bytes
  simp [le4]

theorem hexChars_length (bs : List Nat) : (hexChars bs).length = 2 * bs.length := by
  induction bs with
  | nil => rfl
  | cons b t ih =>
    simp only [hexChars, List.map_cons, List.flatten_cons, List.length_append,
      List.length_cons, List.length_nil] at ih ⊢
    omega

theorem calculate_week_hash_length (df : List CsvRow) :
    (calculate_week_hash df).length = 16 := by
  show (List.take 16 _).length = 16
  rw [List.length_take, hexChars_length, md5Bytes_length]
  rfl

/-- C5: the content hash depends only on `Rank`, `Views` and the first 20
characters of `Track Name` and `Artist Names` of the first 10 rows — any
two frames agreeing on that projection get the same 16-character hash,
whatever their other rows and columns hold. -/
theorem week_hash_noninterference (d1 d2 : List CsvRow)
    (h : (d1.take 10).map hashView = (d2.take 10).map hashView) :
    calculate_week_hash d1 = calculate_week_hash d2 ∧
      (calculate_week_hash d1).length = 16 := by
  refine ⟨?_, calculate_week_hash_length d1⟩
  have e : ∀ l : List CsvRow, l.map weekHashChunk
      = (l.map hashView).map fun v =>
        natStr v.1 ++ "_" ++ v.2.2.1 ++ "_" ++ v.2.2.2 ++ "_" ++ natStr v.2.1 := by
    intro l
    rw [List.map_map]
    rfl
  unfold calculate_week_hash
  rw [e, e, h]

/-- Witness for C5: ten rows agreeing on the hashed projection but
differing in `Previous Rank`, `Periods on Chart`, `Growth`, `YouTube URL`
and in an eleventh row. -/
theorem week_hash_noninterference_witness :
    calculate_week_hash c5D1 = calculate_week_hash c5D2 ∧
      (calculate_week_hash c5D1).length = 16 :=
  week_hash_noninterference c5D1 c5D2 (by decide)

set_option maxRecDepth 4000 in
/-- C10: `create_fallback_file` (1_download.py) produces exactly 100
records, with `Rank` exactly 1..100, `Views = 5000000 + (100 - Rank) *
50000`, and `Views` strictly decreasing as `Rank` increases. -/
theorem fallback_file_spec :
    create_fallback_file_download.length = 100 ∧
    create_fallback_file_download.map (·.rank) = List.range' 1 100 ∧
    (∀ r ∈ create_fallback_file_download,
      r.views = 5000000 + (100 - r.rank) * 50000) ∧
    ∀ r1 ∈ create_fallback_file_download, ∀ r2 ∈ create_fallback_file_download,
      r1.rank < r2.rank → r2.views < r1.views := by
  refine ⟨by decide, by decide, by decide, by decide⟩

/-! ### Backup rotation -/

/-- C6: after a run of `backup_database` (1_descargar.py) on an existing
database, at most 5 files matching `charts_database_backup_*.db` remain
(exactly `min 5` of the files present after the copy), only previously
present files survive, and — for distinct modification times — every
deleted file is older than every kept one, i.e. the deleted files are
exactly those not among the 5 most recent. -/
theorem backup_rotation_bound (m : Nat) (ts : String) (backups : List BackupFile)
    (hnd : ((backups ++ [newBackup ts m]).map BackupFile.mtime).Nodup) :
    ((backup_database (some m) ts backups).2).length
        = min 5 (backups.length + 1) ∧
    (∀ k ∈ (backup_database (some m) ts backups).2,
      k ∈ backups ++ [newBackup ts m]) ∧
    ∀ d ∈ backups ++ [newBackup ts m],
      d ∉ (backup_database (some m) ts backups).2 →
      ∀ k ∈ (backup_database (some m) ts backups).2, d.mtime < k.mtime := by
  set all := backups ++ [newBackup ts m] with hall
  have hres : (backup_database (some m) ts backups).2
      = if 5 < all.length then
          (all.insertionSort backupLe).drop (all.length - 5)
        else all := rfl
  have hlenall : all.length = backups.length + 1 := by simp [hall]
  by_cases h5 : 5 < all.length
  · rw [hres, if_pos h5]
    have hperm : List.Perm (all.insertionSort backupLe) all :=
      List.perm_insertionSort _ _
    have hlen : (all.insertionSort backupLe).length = all.length := hperm.length_eq
    have hsorted : List.Sorted backupLe (all.insertionSort backupLe) :=
      List.sorted_insertionSort _ _
    generalize hsrt : all.insertionSort backupLe = srt at *
    refine ⟨?_, ?_, ?_⟩
    · rw [List.length_drop, hlen]
      omega
    · intro k hk
      exact hperm.subset (List.mem_of_mem_drop hk)
    · intro d hd hnot k hk
      have hds : d ∈ srt := hperm.mem_iff.mpr hd
      have hdt : d ∈ srt.take (all.length - 5) := by
        rcases List.mem_append.mp
          ((List.take_append_drop (all.length - 5) srt) ▸ hds) with h | h
        · exact h
        · exact absurd h hnot
      have hp : List.Pairwise backupLe
          (srt.take (all.length - 5) ++ srt.drop (all.length - 5)) := by
        rw [List.take_append_drop]
        exact hsorted
      have hle : backupLe d k := (List.pairwise_append.mp hp).2.2 d hdt k hk
      have hnd2 : ((srt.take (all.length - 5)).map BackupFile.mtime ++
          (srt.drop (all.length - 5)).map BackupFile.mtime).Nodup := by
        rw [← List.map_append, List.take_append_drop]
        exact ((hperm.map BackupFile.mtime).nodup_iff).mpr hnd
      have hne : d.mtime ≠ k.mtime := by
        intro he
        exact (List.nodup_append.mp hnd2).2.2
          (List.mem_map_of_mem BackupFile.mtime hdt)
          (he ▸ List.mem_map_of_mem BackupFile.mtime hk)
      exact Nat.lt_of_le_of_ne hle hne
  · rw [hres, if_neg h5]
    refine ⟨by omega, fun k hk => hk, fun d hd hnot k hk => absurd hd hnot⟩

/-- Witness for C6: seven distinct-mtime backups collapse to five. -/
theorem backup_rotation_bound_witness :
    ((backup_database (some 9) "20251006_000000" c6Backups).2).length
      = min 5 (c6Backups.length + 1) :=
  (backup_rotation_bound 9 "20251006_000000" c6Backups (by decide)).1

/-! ### The week identifier -/

theorem isoWeeksInYear_cases (y : Nat) :
    isoWeeksInYear y = 52 ∨ isoWeeksInYear y = 53 := by
  simp only [isoWeeksInYear]
  split
  · exact Or.inr rfl
  · exact Or.inl rfl

theorem isoWeek_range (d : Date) :
    1 ≤ (isoCalendar d).2 ∧ (isoCalendar d).2 ≤ 53 := by
  have h52 := isoWeeksInYear_cases (d.year - 1)
  have h53 := isoWeeksInYear_cases d.year
  simp only [isoCalendar]
  split
  · rcases h52 with h | h <;> simp [h]
  · split
    · simp
    · rcases h53 with h | h <;> simp_all <;> omega

theorem pad2_length : ∀ w, w < 54 → (pad2 w).data.length = 2 := by decide

theorem pad2_inj : ∀ w1, w1 < 54 → ∀ w2, w2 < 54 →
    pad2 w1 = pad2 w2 → w1 = w2 := by decide

/-- Equal identifier strings come from equal (ISO year, ISO week) pairs. -/
theorem get_week_identifier_inj {d1 d2 : Date}
    (h : get_week_identifier d1 = get_week_identifier d2) :
    isoCalendar d1 = isoCalendar d2 := by
  obtain ⟨hr1, hr1b⟩ := isoWeek_range d1
  obtain ⟨hr2, hr2b⟩ := isoWeek_range d2
  have hd := congrArg String.data h
  simp only [get_week_identifier, strData_append, List.append_assoc] at hd
  have hp1 : (pad2 (isoCalendar d1).2).data.length = 2 :=
    pad2_length (isoCalendar d1).2 (by omega)
  have hp2 : (pad2 (isoCalendar d2).2).data.length = 2 :=
    pad2_length (isoCalendar d2).2 (by omega)
  obtain ⟨hy, hw⟩ := List.append_inj' hd (by
    simp only [List.length_append, List.length_cons, List.length_nil, hp1, hp2])
  have hyear : (isoCalendar d1).1 = (isoCalendar d2).1 :=
    natStr_injective (congrArg String.mk hy)
  have hweek : (isoCalendar d1).2 = (isoCalendar d2).2 := by
    apply pad2_inj (isoCalendar d1).2 (by omega) (isoCalendar d2).2 (by omega)
    have hp : (pad2 (isoCalendar d1).2).data = (pad2 (isoCalendar d2).2).data := by
      simpa using hw
    exact congrArg String.mk hp
  exact Prod.ext hyear hweek

/-- C7: `get_week_identifier` returns the ISO calendar year and ISO week
number of the date formatted as `YYYY-WXX` with the week number
zero-padded to two digits (the week number always lies in 1..53), so
dates in the same ISO week get the same identifier and dates in
different ISO weeks get different identifiers. -/
theorem week_identifier_spec (d1 d2 : Date) :
    get_week_identifier d1
        = natStr (isoCalendar d1).1 ++ "-W" ++ pad2 (isoCalendar d1).2 ∧
    1 ≤ (isoCalendar d1).2 ∧ (isoCalendar d1).2 ≤ 53 ∧
    (pad2 (isoCalendar d1).2).length = 2 ∧
    ((isoCalendar d1).2 < 10 →
      pad2 (isoCalendar d1).2 = "0" ++ natStr (isoCalendar d1).2) ∧
    (isoCalendar d1 = isoCalendar d2 →
      get_week_identifier d1 = get_week_identifier d2) ∧
    (isoCalendar d1 ≠ isoCalendar d2 →
      get_week_identifier d1 ≠ get_week_identifier d2) := by
  obtain ⟨hr1, hr1b⟩ := isoWeek_range d1
  refine ⟨rfl, hr1, hr1b, pad2_length _ (by omega), ?_, ?_, ?_⟩
  · intro h
    simp [pad2, h]
  · intro h
    simp only [get_week_identifier, h]
  · exact fun hne heq => hne (get_week_identifier_inj heq)

/-- Witness for C7: 2025-12-29 and 2026-01-01 share ISO week 2026-W01
(same identifier across a year boundary); 2026-01-05 is in a different
ISO week and gets a different identifier. -/
theorem week_identifier_spec_witness :
    get_week_identifier ⟨2025, 12, 29⟩ = get_week_identifier ⟨2026, 1, 1⟩ ∧
    get_week_identifier ⟨2026, 1, 1⟩ ≠ get_week_identifier ⟨2026, 1, 5⟩ :=
  ⟨(week_identifier_spec ⟨2025, 12, 29⟩ ⟨2026, 1, 1⟩).2.2.2.2.2.1 (by decide),
   (week_identifier_spec ⟨2026, 1, 1⟩ ⟨2026, 1, 5⟩).2.2.2.2.2.2 (by decide)⟩

/-! ### Uniqueness of `week_control` rows -/

/-- `INSERT OR REPLACE` preserves pairwise-distinct identifiers: the
conflicting rows are removed before the new row is added. -/
theorem insertOrReplaceControl_distinct (row : ControlRow) (t : List ControlRow)
    (h : t.Pairwise fun a b => a.week_identifier ≠ b.week_identifier) :
    (insertOrReplaceControl row t).Pairwise
      fun a b => a.week_identifier ≠ b.week_identifier := by
  unfold insertOrReplaceControl
  apply List.pairwise_append.mpr
  refine ⟨h.sublist (List.filter_sublist t), List.pairwise_singleton _ _, ?_⟩
  intro a ha b hb
  have hcond := (List.mem_filter.mp ha).2
  simp only [decide_eq_true_eq] at hcond
  rcases List.mem_singleton.mp hb with rfl
  exact hcond.1

/-- Each run of `update_sqlite_database` (1_descargar.py) preserves
pairwise-distinct identifiers in `week_control`. -/
theorem descargar_update_distinct (t : Timestamp) (wi : Option String)
    (s : DbState) (csv : List CsvRow)
    (h : s.week_control.Pairwise fun a b => a.week_identifier ≠ b.week_identifier) :
    ((update_sqlite_database_descargar t wi s csv).1.week_control.Pairwise
      fun a b => a.week_identifier ≠ b.week_identifier) := by
  unfold update_sqlite_database_descargar
  by_cases hc : s.week_control.any (fun r => r.week_hash == calculate_week_hash csv)
  · simpa [hc] using h
  · simpa [hc] using insertOrReplaceControl_distinct _ _ h

theorem pairwise_countP_le_one (w : String) {l : List ControlRow}
    (h : l.Pairwise fun a b => a.week_identifier ≠ b.week_identifier) :
    l.countP (fun r => r.week_identifier == w) ≤ 1 := by
  induction l with
  | nil => simp
  | cons a t ih =>
    rcases List.pairwise_cons.mp h with ⟨ha, ht⟩
    rw [List.countP_cons]
    by_cases he : a.week_identifier = w
    · have hz : t.countP (fun r => r.week_identifier == w) = 0 := by
        apply List.countP_eq_zero.mpr
        intro b hb hpb
        exact ha b hb (he.trans (beq_iff_eq.mp hpb).symm)
      have htrue : (a.week_identifier == w) = true := by simp [he]
      rw [hz, htrue]
      simp
    · have hfalse : (a.week_identifier == w) = false := by
        simp [he]
      rw [hfalse]
      simpa using ih ht

/-- C8: because `week_identifier` is the primary key of `week_control`
and the only write is `INSERT OR REPLACE`, after any sequence of
`update_sqlite_database` runs (1_descargar.py) starting from an empty
database, querying `week_control` by a week identifier yields at most
one row. -/
theorem week_control_unique_identifier
    (runs : List (Timestamp × Option String × List CsvRow)) (w : String) :
    ((runs.foldl
        (fun s i => (update_sqlite_database_descargar i.1 i.2.1 s i.2.2).1)
        emptyDb).week_control.countP fun r => r.week_identifier == w) ≤ 1 := by
  apply pairwise_countP_le_one
  have hfold : ∀ (l : List (Timestamp × Option String × List CsvRow)) (s : DbState),
      (s.week_control.Pairwise fun a b => a.week_identifier ≠ b.week_identifier) →
      ((l.foldl (fun s i => (update_sqlite_database_descargar i.1 i.2.1 s i.2.2).1)
          s).week_control.Pairwise
        fun a b => a.week_identifier ≠ b.week_identifier) := by
    intro l
    induction l with
    | nil => exact fun s h => h
    | cons i tl ih =>
      intro s h
      exact ih _ (descargar_update_distinct i.1 i.2.1 s i.2.2 h)
  exact hfold runs emptyDb List.Pairwise.nil

end Charts
